import Mathlib

/-!
Verification development for `src/app.py` (retail-investor-report/searchbar).

The file shallowly embeds the two pieces of the application that carry
actual logic:

* `loadData` — the data-loading / field-normalisation pipeline of
  `load_data` (app.py lines 148-168): header trimming, dropping of rows
  with a missing or literal `"Ticker"` ticker, synthesis of missing text
  columns with the placeholder `"-"`, and numeric cleaning (strip `$`,
  `%`, `,` then parse, failures to 0) of the three columns
  `Dividend`, `Current Price`, `Latest Distribution`.

* `applyFilters` / `displayDF` — the filter-composition and display
  logic (app.py lines 195-271): free-text search across five fields,
  per-tag category filtering, payout membership, the yield-range gate,
  and the projection / renaming / descending-yield sort of the result.

DataFrames are modelled as a list of column names together with rows of
cells; a cell is `Val.na` (pandas NaN), a string, or an exact rational
(modelling the parsed numeric value).  `pandas.Series.str.contains` is
modelled by `reSearch`, a regular-expression search in which `'.'`
matches any character and every other pattern character matches
literally; this coincides with Python's `re.search` on every pattern
whose characters avoid the regex metacharacters (`reSpecials`), which
is the fragment exercised below.
-/

namespace SearchBar

/-- A cell of a (loaded) dataframe: pandas `NaN`, a text value, or a
numeric value.  Numbers are modelled as exact rationals. -/
inductive Val where
  | na : Val
  | str (s : String) : Val
  | num (q : ℚ) : Val
deriving DecidableEq

/-- A raw dataframe as produced by `pd.read_csv`: named columns and rows
of optional text cells (`none` = missing value / NaN). -/
structure RawDF where
  cols : List String
  data : List (List (Option String))

/-- A loaded dataframe: named columns and rows of typed cells. -/
structure DF where
  cols : List String
  data : List (List Val)
deriving DecidableEq

/-- ASCII whitespace, as stripped by `str.strip`. -/
def isSpace (c : Char) : Bool := c == ' ' || c == '\t' || c == '\n' || c == '\r'

/-- `str.strip()` — remove leading and trailing whitespace. -/
def trimStr (s : String) : String :=
  String.mk (((s.data.dropWhile isSpace).reverse.dropWhile isSpace).reverse)

/-- `str.lower()` on one character (ASCII). -/
def lowerChar (c : Char) : Char :=
  if 'A' ≤ c ∧ c ≤ 'Z' then Char.ofNat (c.toNat + 32) else c

/-- `str.lower()` (ASCII). -/
def lowerStr (s : String) : String := String.mk (s.data.map lowerChar)

/-- Does the pattern match a prefix of the text?  `'.'` matches any
character, every other pattern character matches itself. -/
def reMatchAt : List Char → List Char → Bool
  | [], _ => true
  | _ :: _, [] => false
  | p :: ps, t :: ts => (p == '.' || p == t) && reMatchAt ps ts

/-- `re.search` for the dot-and-literals fragment: does the pattern
match at some position of the text?  This is the semantics of
`Series.str.contains(pat)` (which uses `re.search`) for patterns in
that fragment. -/
def reSearch (ps : List Char) : List Char → Bool
  | [] => reMatchAt ps []
  | t :: ts => reMatchAt ps (t :: ts) || reSearch ps ts

/-- The regular-expression metacharacters of Python's `re`. -/
def reSpecials : List Char :=
  ['.', '^', '$', '*', '+', '?', '[', ']', '\\', '|', '(', ')', Char.ofNat 123, Char.ofNat 125]

/-- A string free of regex metacharacters: on such patterns
`re.search` is literal substring search. -/
def metacharFree (s : String) : Bool := s.data.all (fun c => !(reSpecials.contains c))

/-- Numeric value of an ASCII digit. -/
def digitVal (c : Char) : Nat := c.toNat - 48

/-- Value of a digit run. -/
def digitsToNat (ds : List Char) : Nat := ds.foldl (fun n c => 10 * n + digitVal c) 0

/-- Parse an unsigned decimal mantissa (`123`, `123.45`, `.45`, `12.`),
returning its value and the unconsumed rest. -/
def parseMantissa (cs : List Char) : Option (ℚ × List Char) :=
  let p1 := cs.span Char.isDigit
  match p1.2 with
  | '.' :: r2 =>
    let p2 := r2.span Char.isDigit
    if p1.1.isEmpty && p2.1.isEmpty then none
    else some ((digitsToNat p1.1 : ℚ) + (digitsToNat p2.1 : ℚ) / ((10 : ℚ) ^ p2.1.length), p2.2)
  | _ => if p1.1.isEmpty then none else some ((digitsToNat p1.1 : ℚ), p1.2)

/-- Parse the tail of an exponent (`[+-]?digits`, consuming everything). -/
def parseExpTail (cs : List Char) : Option Int :=
  let signed : Bool × List Char :=
    match cs with
    | '-' :: t => (true, t)
    | '+' :: t => (false, t)
    | _ => (false, cs)
  let p := signed.2.span Char.isDigit
  if p.1.isEmpty || !p.2.isEmpty then none
  else some (if signed.1 then -(digitsToNat p.1 : Int) else (digitsToNat p.1 : Int))

/-- Scale a rational by a power of ten. -/
def scaleByExp (q : ℚ) (e : Int) : ℚ :=
  if 0 ≤ e then q * (10 : ℚ) ^ e.toNat else q / (10 : ℚ) ^ (-e).toNat

/-- `pd.to_numeric(s, errors="coerce")` on a decimal string: optional
whitespace and sign, digits with an optional fraction, optional
exponent; anything else coerces to NaN (`none`). -/
def parseDec (s : String) : Option ℚ :=
  let cs := (trimStr s).data
  let signed : Bool × List Char :=
    match cs with
    | '-' :: t => (true, t)
    | '+' :: t => (false, t)
    | _ => (false, cs)
  match parseMantissa signed.2 with
  | none => none
  | some qr =>
    let q := if signed.1 then -qr.1 else qr.1
    match qr.2 with
    | [] => some q
    | 'e' :: t => (parseExpTail t).map (scaleByExp q)
    | 'E' :: t => (parseExpTail t).map (scaleByExp q)
    | _ => none

/-- The chained `str.replace` calls of app.py line 165: remove every
`$`, `%` and `,` character. -/
def stripMoney (s : String) : String :=
  String.mk (s.data.filter (fun c => !(c == '$' || c == '%' || c == ',')))

/-- One cell of app.py lines 163-166: `astype(str)`, strip `$` `%` `,`,
`pd.to_numeric(errors="coerce")`, `fillna(0)`.  A NaN cell becomes the
string `"nan"`, which fails to parse and hence also lands on 0. -/
def numClean (v : Val) : ℚ :=
  match v with
  | Val.str s => (parseDec (stripMoney s)).getD 0
  | Val.na => 0
  | Val.num q => q

/-- Index of the first column with the given name, as used by pandas
column lookup `df[c]`. -/
def idxOf? (c : String) : List String → Option Nat
  | [] => none
  | d :: ds => if d = c then some 0 else (idxOf? c ds).map (· + 1)

/-- Cell of a row at an index (out of range = NaN). -/
def cellAt (r : List Val) (i : Nat) : Val := r.getD i Val.na

/-- Rewrite the cell at one index of a row. -/
def modifyAt (f : Val → Val) : Nat → List Val → List Val
  | _, [] => []
  | 0, v :: vs => f v :: vs
  | Nat.succ n, v :: vs => v :: modifyAt f n vs

/-- `df[c]` for one row: the cell in the first column named `c`, or
`none` when there is no such column (or the row is too short). -/
def colVal (cols : List String) (r : List Val) (c : String) : Option Val :=
  (idxOf? c cols).bind (fun i => r.get? i)

/-- Text content of a column of a row (non-text cells read as `""`). -/
def fieldStr (cols : List String) (r : List Val) (c : String) : String :=
  match colVal cols r c with
  | some (Val.str s) => s
  | _ => ""

/-- Numeric content of a column of a row (non-numeric cells read as 0). -/
def fieldNum (cols : List String) (r : List Val) (c : String) : ℚ :=
  match colVal cols r c with
  | some (Val.num q) => q
  | _ => 0

/-- A raw CSV cell as a dataframe cell. -/
def rawToVal : Option String → Val
  | none => Val.na
  | some s => Val.str s

/-- The text columns filled (or synthesised) by app.py lines 159-162. -/
def textCols : List String :=
  ["Ticker", "Strategy", "Company", "Underlying", "Payout", "Category",
   "Pay Date", "Declaration Date", "Ex-Div Date"]

/-- The columns cleaned numerically by app.py lines 163-166. -/
def numCols : List String := ["Dividend", "Current Price", "Latest Distribution"]

/-- `fillna('-').astype(str)` on one cell (raw cells are never numeric). -/
def textFill (v : Val) : Val :=
  match v with
  | Val.na => Val.str "-"
  | v => v

/-- One iteration of the text-column loop (app.py lines 160-162): a
present column is filled, a missing one is synthesised as a constant
`"-"` column appended on the right. -/
def fillTextStep (st : List String × List (List Val)) (col : String) :
    List String × List (List Val) :=
  match idxOf? col st.1 with
  | some i => (st.1, st.2.map (modifyAt textFill i))
  | none => (st.1 ++ [col], st.2.map (fun r => r ++ [Val.str "-"]))

/-- One iteration of the numeric-cleaning loop (app.py lines 163-166): a
present column is cleaned cell-wise, a missing one is left alone (no
synthesis). -/
def numStep (st : List String × List (List Val)) (col : String) :
    List String × List (List Val) :=
  match idxOf? col st.1 with
  | some i => (st.1, st.2.map (modifyAt (fun v => Val.num (numClean v)) i))
  | none => st

/-- app.py lines 156-157: `dropna(subset=['Ticker'])` followed by
`df[df['Ticker'] != 'Ticker']`, with the ticker column at index `ti`. -/
def dropBad (ti : Nat) (rows : List (List Val)) : List (List Val) :=
  (rows.filter (fun r => !(cellAt r ti == Val.na))).filter
    (fun r => !(cellAt r ti == Val.str "Ticker"))

/-- Repackage a (columns, rows) state as a dataframe. -/
def mkDF (st : List String × List (List Val)) : DF := ⟨st.1, st.2⟩

theorem mkDF_cols (st : List String × List (List Val)) : (mkDF st).cols = st.1 := rfl

theorem mkDF_data (st : List String × List (List Val)) : (mkDF st).data = st.2 := rfl

/-- `load_data` (app.py lines 148-168), after a successful fetch: trim
the headers, drop rows whose `Ticker` is missing or literally
`"Ticker"`, fill/synthesise the text columns, clean the three numeric
columns.  `none` models the `KeyError` raised by
`dropna(subset=['Ticker'])` when no `Ticker` column exists. -/
def loadData (t : RawDF) : Option DF :=
  match idxOf? "Ticker" (t.cols.map trimStr) with
  | none => none
  | some ti =>
    some (mkDF (numCols.foldl numStep (textCols.foldl fillTextStep
      (t.cols.map trimStr, dropBad ti (t.data.map (fun r => r.map rawToVal))))))

/-- The user-supplied filter criteria (app.py lines 177-199): free-text
search, selected category tags, selected payout frequencies, and the
yield slider with its default bounds `(0, 150)`. -/
structure Criteria where
  searchTerm : String
  strategies : List String
  freqs : List String
  yieldLo : ℚ
  yieldHi : ℚ

/-- `has_yield` (app.py line 199): the slider differs from `(0, 150)`. -/
def hasYield (c : Criteria) : Bool := decide (0 < c.yieldLo) || decide (c.yieldHi < 150)

/-- `has_search or has_strat or has_freq or has_yield` (app.py line 201). -/
def anyActive (c : Criteria) : Bool :=
  decide (c.searchTerm ≠ "") || decide (c.strategies ≠ []) ||
  decide (c.freqs ≠ []) || hasYield c

/-- The free-text predicate of app.py lines 205-211: the lowered query,
searched in the lowered `Ticker`, `Strategy`, `Company`, `Category` and
`Underlying` fields. -/
def searchHit (cols : List String) (term : String) (r : List Val) : Bool :=
  let t := (lowerStr term).data
  reSearch t (lowerStr (fieldStr cols r "Ticker")).data ||
  reSearch t (lowerStr (fieldStr cols r "Strategy")).data ||
  reSearch t (lowerStr (fieldStr cols r "Company")).data ||
  reSearch t (lowerStr (fieldStr cols r "Category")).data ||
  reSearch t (lowerStr (fieldStr cols r "Underlying")).data

/-- `filtered['Category'].str.contains(strat, case=False)` (app.py line
214), with `case=False` modelled by lowering pattern and text. -/
def catHit (cols : List String) (strat : String) (r : List Val) : Bool :=
  reSearch (lowerStr strat).data (lowerStr (fieldStr cols r "Category")).data

/-- `filtered['Payout'].isin(selected_freq)` (app.py line 216). -/
def freqHit (freqs : List String) (cols : List String) (r : List Val) : Bool :=
  freqs.contains (fieldStr cols r "Payout")

/-- The yield-bounds predicate of app.py line 218. -/
def yieldHit (lo hi : ℚ) (cols : List String) (r : List Val) : Bool :=
  decide (lo ≤ fieldNum cols r "Dividend") && decide (fieldNum cols r "Dividend" ≤ hi)

/-- `if has_search: filtered = filtered[...]` (app.py lines 203-211). -/
def searchStage (cols : List String) (term : String) (rs : List (List Val)) :
    List (List Val) :=
  if term ≠ "" then rs.filter (searchHit cols term) else rs

/-- `if has_strat: for strat in selected_strategies: filtered = ...`
(app.py lines 212-214) — one successive filter per selected tag. -/
def stratStage (cols : List String) (strats : List String) (rs : List (List Val)) :
    List (List Val) :=
  if strats ≠ [] then strats.foldl (fun acc strat => acc.filter (catHit cols strat)) rs else rs

/-- `if has_freq: filtered = filtered[...isin...]` (app.py lines 215-216). -/
def freqStage (freqs : List String) (cols : List String) (rs : List (List Val)) :
    List (List Val) :=
  if freqs ≠ [] then rs.filter (freqHit freqs cols) else rs

/-- `if has_yield and 'Dividend' in filtered.columns: ...` (app.py
lines 217-218). -/
def yieldStage (c : Criteria) (cols : List String) (rs : List (List Val)) :
    List (List Val) :=
  if hasYield c && cols.contains "Dividend" then rs.filter (yieldHit c.yieldLo c.yieldHi cols)
  else rs

/-- The filter pipeline of app.py lines 201-218.  With no active
criterion the branch is not taken and the full dataframe stands. -/
def applyFilters (df : DF) (c : Criteria) : DF :=
  if anyActive c then
    ⟨df.cols,
     yieldStage c df.cols
       (freqStage c.freqs df.cols
         (stratStage df.cols c.strategies
           (searchStage df.cols c.searchTerm df.data)))⟩
  else df

/-- The display renaming of app.py lines 221-228 and 259-263. -/
def renameCol (c : String) : String :=
  if c = "Current Price" then "Price"
  else if c = "Dividend" then "Yield %"
  else if c = "Latest Distribution" then "Latest Dist"
  else c

/-- `target_order` (app.py lines 230-233). -/
def targetOrder : List String :=
  ["Ticker", "Strategy", "Underlying", "Current Price", "Payout",
   "Latest Distribution", "Dividend", "Declaration Date", "Ex-Div Date", "Pay Date"]

/-- Project one row onto the existing display columns. -/
def projRow (cols : List String) (existing : List String) (r : List Val) : List Val :=
  existing.map (fun c => (colVal cols r c).getD Val.na)

/-- Stable ascending insertion by key. -/
def insertAsc (key : List Val → ℚ) (a : List Val) : List (List Val) → List (List Val)
  | [] => [a]
  | b :: l => if key a ≤ key b then a :: b :: l else b :: insertAsc key a l

/-- Stable ascending insertion sort by key.  numpy's argsort coincides
with a stable sort on inputs below its introsort threshold of 16
elements, where it is an insertion sort; above that threshold its
quicksort partitioning is not stable. -/
def sortAsc (key : List Val → ℚ) : List (List Val) → List (List Val)
  | [] => []
  | a :: l => insertAsc key a (sortAsc key l)

/-- `sort_values(by=key, ascending=False)` as performed by pandas
`nargsort`: the data is reversed, argsorted ascending, and the indexer
reversed again — for a stable underlying sort this is a stable
descending sort, here expressed directly on rows. -/
def sortValuesDesc (key : List Val → ℚ) (l : List (List Val)) : List (List Val) :=
  (sortAsc key l.reverse).reverse

/-- The display stage of app.py lines 220-271: with an active criterion
and a non-empty filtered set, project onto the existing target columns,
rename, and (when a `Yield %` column exists) sort descending by it;
with an active criterion and no matches, show no table (`none`); with
no active criterion, show the full renamed dataframe unsorted. -/
def displayDF (df : DF) (c : Criteria) : Option DF :=
  if anyActive c then
    let f := applyFilters df c
    if f.data.isEmpty then none
    else
      let existing := targetOrder.filter (fun col => df.cols.contains col)
      let dcols := existing.map renameCol
      let rows := f.data.map (projRow df.cols existing)
      let rows2 := if dcols.contains "Yield %" then
          sortValuesDesc (fun r => fieldNum dcols r "Yield %") rows
        else rows
      some ⟨dcols, rows2⟩
  else some ⟨df.cols.map renameCol, df.data⟩

/-- The criteria of an untouched filter bar: empty query, no tags, no
frequencies, the slider at its default `(0, 150)`. -/
def defaultCriteria : Criteria := ⟨"", [], [], 0, 150⟩

/-! ### Helper lemmas about the filter stages -/

theorem mem_foldl_filter {α : Type} (p : String → α → Bool) (l : List String)
    (rs : List α) (r : α) :
    r ∈ l.foldl (fun acc s => acc.filter (p s)) rs ↔ r ∈ rs ∧ ∀ s ∈ l, p s r = true := by
  induction l generalizing rs with
  | nil => simp
  | cons a l ih =>
    simp only [List.foldl_cons, ih, List.mem_filter, List.mem_cons]
    constructor
    · rintro ⟨⟨h1, h2⟩, h3⟩
      refine ⟨h1, fun s hs => ?_⟩
      rcases hs with rfl | hs
      · exact h2
      · exact h3 s hs
    · rintro ⟨h1, h2⟩
      exact ⟨⟨h1, h2 a (Or.inl rfl)⟩, fun s hs => h2 s (Or.inr hs)⟩

theorem mem_searchStage (cols : List String) (term : String) (rs : List (List Val))
    (r : List Val) :
    r ∈ searchStage cols term rs ↔ r ∈ rs ∧ (term ≠ "" → searchHit cols term r = true) := by
  unfold searchStage
  by_cases h : term = ""
  · simp [h]
  · simp [h, List.mem_filter]

theorem mem_stratStage (cols : List String) (strats : List String) (rs : List (List Val))
    (r : List Val) :
    r ∈ stratStage cols strats rs ↔ r ∈ rs ∧ ∀ s ∈ strats, catHit cols s r = true := by
  unfold stratStage
  by_cases h : strats = []
  · simp [h]
  · simp only [h, ne_eq, not_false_iff, if_true]
    exact mem_foldl_filter _ _ _ _

theorem mem_freqStage (freqs : List String) (cols : List String) (rs : List (List Val))
    (r : List Val) :
    r ∈ freqStage freqs cols rs ↔ r ∈ rs ∧ (freqs ≠ [] → freqHit freqs cols r = true) := by
  unfold freqStage
  by_cases h : freqs = []
  · simp [h]
  · simp [h, List.mem_filter]

theorem mem_yieldStage (c : Criteria) (cols : List String) (rs : List (List Val))
    (r : List Val) :
    r ∈ yieldStage c cols rs ↔ r ∈ rs ∧
      (hasYield c = true → cols.contains "Dividend" = true →
        yieldHit c.yieldLo c.yieldHi cols r = true) := by
  unfold yieldStage
  by_cases h1 : hasYield c = true
  · by_cases h2 : cols.contains "Dividend" = true
    · have h2m : "Dividend" ∈ cols := by simpa using h2
      simp [h1, h2m, List.mem_filter]
    · have h2m : "Dividend" ∉ cols := by simpa using h2
      simp [h1, h2m]
  · have h1' : hasYield c = false := Bool.of_not_eq_true h1
    simp [h1']

theorem anyActive_eq_false {c : Criteria} (h : ¬ anyActive c = true) :
    c.searchTerm = "" ∧ c.strategies = [] ∧ c.freqs = [] ∧ hasYield c = false := by
  have h' : anyActive c = false := Bool.of_not_eq_true h
  unfold anyActive at h'
  simp only [Bool.or_eq_false_iff, decide_eq_false_iff_not, not_not] at h'
  exact ⟨h'.1.1.1, h'.1.1.2, h'.1.2, h'.2⟩

/-- Membership in the filtered set: a row is in the result of the
filter pipeline iff it is in the store and passes every active
criterion (the category stage demands every selected tag — the
successive-filter loop composes by conjunction). -/
theorem mem_applyFilters (df : DF) (c : Criteria) (r : List Val) :
    r ∈ (applyFilters df c).data ↔
      r ∈ df.data ∧
      (c.searchTerm ≠ "" → searchHit df.cols c.searchTerm r = true) ∧
      (∀ s ∈ c.strategies, catHit df.cols s r = true) ∧
      (c.freqs ≠ [] → freqHit c.freqs df.cols r = true) ∧
      (hasYield c = true → df.cols.contains "Dividend" = true →
        yieldHit c.yieldLo c.yieldHi df.cols r = true) := by
  unfold applyFilters
  by_cases hact : anyActive c = true
  · rw [if_pos hact]
    show r ∈ yieldStage _ _ _ ↔ _
    rw [mem_yieldStage, mem_freqStage, mem_stratStage, mem_searchStage]
    tauto
  · rw [if_neg hact]
    rcases anyActive_eq_false hact with ⟨h1, h2, h3, h4⟩
    simp [h1, h2, h3, h4]

/-! ### The regex fragment versus literal substring search -/

theorem reMatchAt_iff_pref (ps : List Char) (h : ∀ p ∈ ps, p ≠ '.') (ts : List Char) :
    reMatchAt ps ts = true ↔ ps <+: ts := by
  induction ps generalizing ts with
  | nil => simp [reMatchAt]
  | cons p ps ih =>
    cases ts with
    | nil =>
      simp only [reMatchAt]
      constructor
      · intro hfalse; cases hfalse
      · intro hpre
        exact absurd (List.prefix_nil.mp hpre) (List.cons_ne_nil _ _)
    | cons t ts =>
      simp only [reMatchAt, Bool.and_eq_true, Bool.or_eq_true, beq_iff_eq,
        List.cons_prefix_cons]
      have hp : p ≠ '.' := h p (List.mem_cons_self _ _)
      have ih' := ih (fun q hq => h q (List.mem_cons_of_mem _ hq)) ts
      constructor
      · rintro ⟨hdot | rfl, hm⟩
        · exact absurd hdot hp
        · exact ⟨rfl, ih'.mp hm⟩
      · rintro ⟨rfl, hpre⟩
        exact ⟨Or.inr rfl, ih'.mpr hpre⟩

theorem reSearch_iff_substring (ps : List Char) (h : ∀ p ∈ ps, p ≠ '.') (ts : List Char) :
    reSearch ps ts = true ↔ ps <:+: ts := by
  induction ts with
  | nil =>
    show reMatchAt ps [] = true ↔ _
    rw [reMatchAt_iff_pref ps h]
    constructor
    · exact fun hp => hp.isInfix
    · intro hi
      rw [List.infix_nil.mp hi]
  | cons t ts ih =>
    show (reMatchAt ps (t :: ts) || reSearch ps ts) = true ↔ _
    rw [Bool.or_eq_true, reMatchAt_iff_pref ps h, ih, List.infix_cons_iff]

theorem noDot_of_metacharFree {s : String} (h : metacharFree s = true) :
    ∀ p ∈ s.data, p ≠ '.' := by
  intro p hp hdot
  have hall := List.all_eq_true.mp h p hp
  subst hdot
  have : reSpecials.contains '.' = true := by decide
  rw [this] at hall
  cases hall

/-- The free-text predicate, read as substring containment: legitimate
whenever the (lowered) query avoids the regex metacharacters. -/
theorem searchHit_iff (cols : List String) (term : String) (r : List Val)
    (hnd : ∀ p ∈ (lowerStr term).data, p ≠ '.') :
    searchHit cols term r = true ↔
      ((lowerStr term).data <:+: (lowerStr (fieldStr cols r "Ticker")).data ∨
       (lowerStr term).data <:+: (lowerStr (fieldStr cols r "Strategy")).data ∨
       (lowerStr term).data <:+: (lowerStr (fieldStr cols r "Company")).data ∨
       (lowerStr term).data <:+: (lowerStr (fieldStr cols r "Category")).data ∨
       (lowerStr term).data <:+: (lowerStr (fieldStr cols r "Underlying")).data) := by
  unfold searchHit
  simp only [Bool.or_eq_true, reSearch_iff_substring _ hnd]
  tauto

/-- `has_yield` is off at the default slider bounds. -/
theorem hasYield_eq_false {c : Criteria} (hlo : c.yieldLo = 0) (hhi : c.yieldHi = 150) :
    hasYield c = false := by
  simp [hasYield, hlo, hhi]

/-! ### C1 — category filtering -/

def dfC1 : DF := ⟨["Ticker", "Category"], [[Val.str "BTCX", Val.str "Bitcoin, Weekly"]]⟩

def critC1 : Criteria := ⟨"", ["Bitcoin", "0DTE"], [], 0, 150⟩

/-- C1, counterexample: with selected tags `["Bitcoin", "0DTE"]` the
record whose category is `"Bitcoin, Weekly"` is NOT in the filtered
subset, although it contains the selected tag `"Bitcoin"` — the claimed
OR semantics fails on the code, whose per-tag filter loop conjoins the
tags. -/
theorem C1_counterexample :
    [Val.str "BTCX", Val.str "Bitcoin, Weekly"] ∈ dfC1.data ∧
    [Val.str "BTCX", Val.str "Bitcoin, Weekly"] ∉ (applyFilters dfC1 critC1).data := by
  decide

/-- C1, amended: category filtering uses AND semantics — with a
non-empty selection (and the other criteria inactive, tags free of
regex metacharacters) a record is in the filtered subset iff its
`category` text contains EVERY selected tag as a case-insensitive
substring. -/
theorem C1_categoryFilter_and (df : DF) (c : Criteria) (r : List Val)
    (hq : c.searchTerm = "") (hf : c.freqs = []) (hlo : c.yieldLo = 0) (hhi : c.yieldHi = 150)
    (_hs : c.strategies ≠ [])
    (hmeta : ∀ s ∈ c.strategies, metacharFree (lowerStr s) = true) :
    r ∈ (applyFilters df c).data ↔
      r ∈ df.data ∧
      ∀ s ∈ c.strategies,
        (lowerStr s).data <:+: (lowerStr (fieldStr df.cols r "Category")).data := by
  rw [mem_applyFilters]
  have hy := hasYield_eq_false hlo hhi
  constructor
  · rintro ⟨h1, _, h3, _, _⟩
    refine ⟨h1, fun s hs' => ?_⟩
    exact (reSearch_iff_substring _ (noDot_of_metacharFree (hmeta s hs')) _).mp (h3 s hs')
  · rintro ⟨h1, h2⟩
    refine ⟨h1, fun hq' => absurd hq hq', fun s hs' => ?_, fun hf' => absurd hf hf',
      fun hy' => ?_⟩
    · exact (reSearch_iff_substring _ (noDot_of_metacharFree (hmeta s hs')) _).mpr (h2 s hs')
    · rw [hy] at hy'
      cases hy'

def dfC1w : DF := ⟨["Ticker", "Category"], [[Val.str "ZERO", Val.str "0DTE, Bitcoin"]]⟩

/-- Witness for `C1_categoryFilter_and` at a record containing both
selected tags. -/
theorem C1_categoryFilter_and_witness :
    [Val.str "ZERO", Val.str "0DTE, Bitcoin"] ∈ (applyFilters dfC1w critC1).data :=
  (C1_categoryFilter_and dfC1w critC1 [Val.str "ZERO", Val.str "0DTE, Bitcoin"]
    rfl rfl rfl rfl (by decide) (by decide)).mpr ⟨by decide, by decide⟩

/-! ### C3 — free-text search -/

def dfC3 : DF :=
  ⟨["Ticker", "Strategy", "Company", "Category", "Underlying"],
   [[Val.str "XYZ", Val.str "-", Val.str "-", Val.str "-", Val.str "-"]]⟩

def rowC3 : List Val := [Val.str "XYZ", Val.str "-", Val.str "-", Val.str "-", Val.str "-"]

def critC3 : Criteria := ⟨"X.Z", [], [], 0, 150⟩

/-- C3, counterexample: the query `"X.Z"` is passed to
`Series.str.contains` as a regular expression, so the record with
ticker `"XYZ"` IS in the search result even though the lowered query is
a substring of none of its five searched fields — search is not the
claimed literal substring match. -/
theorem C3_counterexample :
    rowC3 ∈ (applyFilters dfC3 critC3).data ∧
    ¬ ((lowerStr critC3.searchTerm).data <:+: (lowerStr (fieldStr dfC3.cols rowC3 "Ticker")).data ∨
       (lowerStr critC3.searchTerm).data <:+: (lowerStr (fieldStr dfC3.cols rowC3 "Strategy")).data ∨
       (lowerStr critC3.searchTerm).data <:+: (lowerStr (fieldStr dfC3.cols rowC3 "Company")).data ∨
       (lowerStr critC3.searchTerm).data <:+: (lowerStr (fieldStr dfC3.cols rowC3 "Category")).data ∨
       (lowerStr critC3.searchTerm).data <:+: (lowerStr (fieldStr dfC3.cols rowC3 "Underlying")).data) := by
  decide

/-- C3, amended: for a non-empty query whose lowered form is free of
regex metacharacters (and no other active criterion), a record is in
the search result iff the lowered query is a substring of at least one
of its `Ticker`, `Strategy`, `Company`, `Category`, `Underlying`
fields. -/
theorem C3_searchFilter_substring (df : DF) (c : Criteria) (r : List Val)
    (hs : c.strategies = []) (hf : c.freqs = []) (hlo : c.yieldLo = 0) (hhi : c.yieldHi = 150)
    (hq : c.searchTerm ≠ "") (hmeta : metacharFree (lowerStr c.searchTerm) = true) :
    r ∈ (applyFilters df c).data ↔
      r ∈ df.data ∧
      ((lowerStr c.searchTerm).data <:+: (lowerStr (fieldStr df.cols r "Ticker")).data ∨
       (lowerStr c.searchTerm).data <:+: (lowerStr (fieldStr df.cols r "Strategy")).data ∨
       (lowerStr c.searchTerm).data <:+: (lowerStr (fieldStr df.cols r "Company")).data ∨
       (lowerStr c.searchTerm).data <:+: (lowerStr (fieldStr df.cols r "Category")).data ∨
       (lowerStr c.searchTerm).data <:+: (lowerStr (fieldStr df.cols r "Underlying")).data) := by
  rw [mem_applyFilters]
  have hy := hasYield_eq_false hlo hhi
  have hnd := noDot_of_metacharFree hmeta
  constructor
  · rintro ⟨h1, h2, _, _, _⟩
    exact ⟨h1, (searchHit_iff _ _ _ hnd).mp (h2 hq)⟩
  · rintro ⟨h1, h2⟩
    refine ⟨h1, fun _ => (searchHit_iff _ _ _ hnd).mpr h2, ?_, fun hf' => absurd hf hf',
      fun hy' => ?_⟩
    · rw [hs]
      intro s hs'
      exact absurd hs' (List.not_mem_nil s)
    · rw [hy] at hy'
      cases hy'

def dfC3w : DF :=
  ⟨["Ticker", "Strategy", "Company", "Category", "Underlying"],
   [[Val.str "NVDY", Val.str "-", Val.str "-", Val.str "-", Val.str "-"]]⟩

def rowC3w : List Val := [Val.str "NVDY", Val.str "-", Val.str "-", Val.str "-", Val.str "-"]

def critC3w : Criteria := ⟨"NVD", [], [], 0, 150⟩

/-- Witness for `C3_searchFilter_substring`: the query `"NVD"` finds
the record with ticker `"NVDY"`. -/
theorem C3_searchFilter_substring_witness :
    rowC3w ∈ (applyFilters dfC3w critC3w).data :=
  (C3_searchFilter_substring dfC3w critC3w rowC3w rfl rfl rfl rfl (by decide) (by decide)).mpr
    ⟨by decide, by decide⟩

/-! ### C5 — absent criteria are a no-op -/

/-- C5: with every criterion absent or at its default, the filter
branch is not taken: the engine returns the full record set unchanged,
and the page displays the whole (renamed) dataframe — not an empty
set. -/
theorem C5_defaultCriteria_noop (df : DF) :
    applyFilters df defaultCriteria = df ∧
    displayDF df defaultCriteria = some ⟨df.cols.map renameCol, df.data⟩ := by
  have h : anyActive defaultCriteria = false := by decide
  refine ⟨?_, ?_⟩
  · unfold applyFilters
    simp [h]
  · unfold displayDF
    simp [h]

/-! ### C10 — the yield criterion at its default bounds -/

/-- C10: with the slider at its default `(0, 150)` the yield stage is
skipped entirely — membership in the filtered set is characterised
without any condition on `Dividend`, so records with a yield above 150
pass. -/
theorem C10_defaultYieldBounds_noYieldFilter (df : DF) (c : Criteria) (r : List Val)
    (hlo : c.yieldLo = 0) (hhi : c.yieldHi = 150) :
    r ∈ (applyFilters df c).data ↔
      r ∈ df.data ∧
      (c.searchTerm ≠ "" → searchHit df.cols c.searchTerm r = true) ∧
      (∀ s ∈ c.strategies, catHit df.cols s r = true) ∧
      (c.freqs ≠ [] → freqHit c.freqs df.cols r = true) := by
  rw [mem_applyFilters]
  have hy := hasYield_eq_false hlo hhi
  simp [hy]

def dfC10 : DF :=
  ⟨["Ticker", "Strategy", "Company", "Category", "Underlying", "Dividend"],
   [[Val.str "NVDY", Val.str "-", Val.str "-", Val.str "-", Val.str "-", Val.num 200]]⟩

def rowC10 : List Val :=
  [Val.str "NVDY", Val.str "-", Val.str "-", Val.str "-", Val.str "-", Val.num 200]

def critC10 : Criteria := ⟨"nv", [], [], 0, 150⟩

/-- Witness for `C10_defaultYieldBounds_noYieldFilter`: a record with
`Dividend` 200 (above the slider maximum of 150) is included when the
slider sits at its default. -/
theorem C10_defaultYieldBounds_noYieldFilter_witness :
    rowC10 ∈ (applyFilters dfC10 critC10).data ∧
    fieldNum dfC10.cols rowC10 "Dividend" = 200 :=
  ⟨(C10_defaultYieldBounds_noYieldFilter dfC10 critC10 rowC10 rfl rfl).mpr
     ⟨by decide, by decide, by decide, by decide⟩,
   by decide⟩

/-- Reduction of `loadData` once the ticker column index is known. -/
theorem loadData_eq_some {t : RawDF} {ti : Nat}
    (h : idxOf? "Ticker" (t.cols.map trimStr) = some ti) :
    loadData t = some (mkDF (numCols.foldl numStep (textCols.foldl fillTextStep
      (t.cols.map trimStr, dropBad ti (t.data.map (fun r => r.map rawToVal)))))) := by
  unfold loadData
  rw [h]

/-! ### C2 — AUM is not normalised -/

/-- A one-record raw table whose `AUM` cell is the string `s`. -/
def rawC2 (s : String) : RawDF := ⟨["Ticker", "AUM"], [[some "NVDY", some s]]⟩

/-- C2, counterexample: the raw AUM string `"$3.95M"` is NOT parsed to
3 950 000 — `load_data` never touches the `AUM` column, so the stored
cell is the raw text itself. -/
theorem C2_counterexample :
    (loadData (rawC2 "$3.95M")).map (fun df => colVal df.cols (df.data.getD 0 []) "AUM") =
      some (some (Val.str "$3.95M")) ∧
    Val.str "$3.95M" ≠ Val.num 3950000 := by
  exact ⟨rfl, by decide⟩

/-- C2, amended: for EVERY raw AUM string, the loaded value is the raw
text unchanged — no magnitude-suffix parsing (and no parsing at all)
is applied to `AUM` anywhere in the pipeline. -/
theorem C2_aumPassthrough (s : String) :
    (loadData (rawC2 s)).map (fun df => colVal df.cols (df.data.getD 0 []) "AUM") =
      some (some (Val.str s)) := by
  rw [@loadData_eq_some (rawC2 s) 0 rfl]
  rw [show dropBad 0 ((rawC2 s).data.map (fun r => r.map rawToVal)) =
        [[Val.str "NVDY", Val.str s]] from rfl]
  rw [show (rawC2 s).cols.map trimStr = ["Ticker", "AUM"] from rfl]
  simp only [textCols, numCols, List.foldl_cons, List.foldl_nil]
  rw [show fillTextStep (["Ticker", "AUM"],
       [[Val.str "NVDY", Val.str s]])
        "Ticker" =
      (["Ticker", "AUM"],
       [[Val.str "NVDY", Val.str s]]) from rfl]
  rw [show fillTextStep (["Ticker", "AUM"],
       [[Val.str "NVDY", Val.str s]])
        "Strategy" =
      (["Ticker", "AUM", "Strategy"],
       [[Val.str "NVDY", Val.str s, Val.str "-"]]) from rfl]
  rw [show fillTextStep (["Ticker", "AUM", "Strategy"],
       [[Val.str "NVDY", Val.str s, Val.str "-"]])
        "Company" =
      (["Ticker", "AUM", "Strategy", "Company"],
       [[Val.str "NVDY", Val.str s, Val.str "-", Val.str "-"]]) from rfl]
  rw [show fillTextStep (["Ticker", "AUM", "Strategy", "Company"],
       [[Val.str "NVDY", Val.str s, Val.str "-", Val.str "-"]])
        "Underlying" =
      (["Ticker", "AUM", "Strategy", "Company", "Underlying"],
       [[Val.str "NVDY", Val.str s, Val.str "-", Val.str "-", Val.str "-"]]) from rfl]
  rw [show fillTextStep (["Ticker", "AUM", "Strategy", "Company", "Underlying"],
       [[Val.str "NVDY", Val.str s, Val.str "-", Val.str "-", Val.str "-"]])
        "Payout" =
      (["Ticker", "AUM", "Strategy", "Company", "Underlying", "Payout"],
       [[Val.str "NVDY", Val.str s, Val.str "-", Val.str "-", Val.str "-", Val.str "-"]]) from rfl]
  rw [show fillTextStep (["Ticker", "AUM", "Strategy", "Company", "Underlying", "Payout"],
       [[Val.str "NVDY", Val.str s, Val.str "-", Val.str "-", Val.str "-", Val.str "-"]])
        "Category" =
      (["Ticker", "AUM", "Strategy", "Company", "Underlying", "Payout", "Category"],
       [[Val.str "NVDY", Val.str s, Val.str "-", Val.str "-", Val.str "-", Val.str "-", Val.str "-"]]) from rfl]
  rw [show fillTextStep (["Ticker", "AUM", "Strategy", "Company", "Underlying", "Payout", "Category"],
       [[Val.str "NVDY", Val.str s, Val.str "-", Val.str "-", Val.str "-", Val.str "-", Val.str "-"]])
        "Pay Date" =
      (["Ticker", "AUM", "Strategy", "Company", "Underlying", "Payout", "Category", "Pay Date"],
       [[Val.str "NVDY", Val.str s, Val.str "-", Val.str "-", Val.str "-", Val.str "-", Val.str "-", Val.str "-"]]) from rfl]
  rw [show fillTextStep (["Ticker", "AUM", "Strategy", "Company", "Underlying", "Payout", "Category", "Pay Date"],
       [[Val.str "NVDY", Val.str s, Val.str "-", Val.str "-", Val.str "-", Val.str "-", Val.str "-", Val.str "-"]])
        "Declaration Date" =
      (["Ticker", "AUM", "Strategy", "Company", "Underlying", "Payout", "Category", "Pay Date", "Declaration Date"],
       [[Val.str "NVDY", Val.str s, Val.str "-", Val.str "-", Val.str "-", Val.str "-", Val.str "-", Val.str "-", Val.str "-"]]) from rfl]
  rw [show fillTextStep (["Ticker", "AUM", "Strategy", "Company", "Underlying", "Payout", "Category", "Pay Date", "Declaration Date"],
       [[Val.str "NVDY", Val.str s, Val.str "-", Val.str "-", Val.str "-", Val.str "-", Val.str "-", Val.str "-", Val.str "-"]])
        "Ex-Div Date" =
      (["Ticker", "AUM", "Strategy", "Company", "Underlying", "Payout", "Category", "Pay Date", "Declaration Date", "Ex-Div Date"],
       [[Val.str "NVDY", Val.str s, Val.str "-", Val.str "-", Val.str "-", Val.str "-", Val.str "-", Val.str "-", Val.str "-", Val.str "-"]]) from rfl]
  rw [show numStep (["Ticker", "AUM", "Strategy", "Company", "Underlying", "Payout", "Category", "Pay Date", "Declaration Date", "Ex-Div Date"],
       [[Val.str "NVDY", Val.str s, Val.str "-", Val.str "-", Val.str "-", Val.str "-", Val.str "-", Val.str "-", Val.str "-", Val.str "-"]])
        "Dividend" =
      (["Ticker", "AUM", "Strategy", "Company", "Underlying", "Payout", "Category", "Pay Date", "Declaration Date", "Ex-Div Date"],
       [[Val.str "NVDY", Val.str s, Val.str "-", Val.str "-", Val.str "-", Val.str "-", Val.str "-", Val.str "-", Val.str "-", Val.str "-"]]) from rfl]
  rw [show numStep (["Ticker", "AUM", "Strategy", "Company", "Underlying", "Payout", "Category", "Pay Date", "Declaration Date", "Ex-Div Date"],
       [[Val.str "NVDY", Val.str s, Val.str "-", Val.str "-", Val.str "-", Val.str "-", Val.str "-", Val.str "-", Val.str "-", Val.str "-"]])
        "Current Price" =
      (["Ticker", "AUM", "Strategy", "Company", "Underlying", "Payout", "Category", "Pay Date", "Declaration Date", "Ex-Div Date"],
       [[Val.str "NVDY", Val.str s, Val.str "-", Val.str "-", Val.str "-", Val.str "-", Val.str "-", Val.str "-", Val.str "-", Val.str "-"]]) from rfl]
  rw [show numStep (["Ticker", "AUM", "Strategy", "Company", "Underlying", "Payout", "Category", "Pay Date", "Declaration Date", "Ex-Div Date"],
       [[Val.str "NVDY", Val.str s, Val.str "-", Val.str "-", Val.str "-", Val.str "-", Val.str "-", Val.str "-", Val.str "-", Val.str "-"]])
        "Latest Distribution" =
      (["Ticker", "AUM", "Strategy", "Company", "Underlying", "Payout", "Category", "Pay Date", "Declaration Date", "Ex-Div Date"],
       [[Val.str "NVDY", Val.str s, Val.str "-", Val.str "-", Val.str "-", Val.str "-", Val.str "-", Val.str "-", Val.str "-", Val.str "-"]]) from rfl]
  rfl

/-! ### C6 — numeric cleaning of percentage / currency fields -/

/-- A one-record raw table with symbolic `Dividend`, `Current Price`,
`Latest Distribution` and `Expense Ratio` cells. -/
def rawC6 (d p l e : String) : RawDF :=
  ⟨["Ticker", "Dividend", "Current Price", "Latest Distribution", "Expense Ratio"],
   [[some "NVDY", some d, some p, some l, some e]]⟩

/-- C6, counterexample: the `Expense Ratio` column is NOT cleaned — the
raw string `"0.99%"` is stored untouched instead of being stripped and
parsed to 0.99. -/
theorem C6_counterexample :
    (loadData (rawC6 "84.5%" "$15.32" "$0.1234" "0.99%")).map
        (fun df => colVal df.cols (df.data.getD 0 []) "Expense Ratio") =
      some (some (Val.str "0.99%")) ∧
    Val.str "0.99%" ≠ Val.num (99 / 100) := by
  exact ⟨rfl, by decide⟩

/-- C6, amended: for every raw cell string, the three columns
`Dividend`, `Current Price` and `Latest Distribution` are normalised by
stripping `$`, `%`, `,` and parsing the remainder as a decimal number,
with any malformed remainder degrading to 0 (totally — no exception);
the `Expense Ratio` column is left untouched. -/
theorem C6_numericCleaning (d p l e : String) :
    (loadData (rawC6 d p l e)).map
        (fun df =>
          (colVal df.cols (df.data.getD 0 []) "Dividend",
           colVal df.cols (df.data.getD 0 []) "Current Price",
           colVal df.cols (df.data.getD 0 []) "Latest Distribution",
           colVal df.cols (df.data.getD 0 []) "Expense Ratio")) =
      some (some (Val.num ((parseDec (stripMoney d)).getD 0)),
            some (Val.num ((parseDec (stripMoney p)).getD 0)),
            some (Val.num ((parseDec (stripMoney l)).getD 0)),
            some (Val.str e)) := by
  rw [@loadData_eq_some (rawC6 d p l e) 0 rfl]
  rw [show dropBad 0 ((rawC6 d p l e).data.map (fun r => r.map rawToVal)) =
        [[Val.str "NVDY", Val.str d, Val.str p, Val.str l, Val.str e]] from rfl]
  rw [show (rawC6 d p l e).cols.map trimStr =
        ["Ticker", "Dividend", "Current Price", "Latest Distribution", "Expense Ratio"]
      from rfl]
  simp only [textCols, numCols, List.foldl_cons, List.foldl_nil]
  rw [show fillTextStep (["Ticker", "Dividend", "Current Price", "Latest Distribution", "Expense Ratio"],
       [[Val.str "NVDY", Val.str d, Val.str p, Val.str l, Val.str e]])
        "Ticker" =
      (["Ticker", "Dividend", "Current Price", "Latest Distribution", "Expense Ratio"],
       [[Val.str "NVDY", Val.str d, Val.str p, Val.str l, Val.str e]]) from rfl]
  rw [show fillTextStep (["Ticker", "Dividend", "Current Price", "Latest Distribution", "Expense Ratio"],
       [[Val.str "NVDY", Val.str d, Val.str p, Val.str l, Val.str e]])
        "Strategy" =
      (["Ticker", "Dividend", "Current Price", "Latest Distribution", "Expense Ratio", "Strategy"],
       [[Val.str "NVDY", Val.str d, Val.str p, Val.str l, Val.str e, Val.str "-"]]) from rfl]
  rw [show fillTextStep (["Ticker", "Dividend", "Current Price", "Latest Distribution", "Expense Ratio", "Strategy"],
       [[Val.str "NVDY", Val.str d, Val.str p, Val.str l, Val.str e, Val.str "-"]])
        "Company" =
      (["Ticker", "Dividend", "Current Price", "Latest Distribution", "Expense Ratio", "Strategy", "Company"],
       [[Val.str "NVDY", Val.str d, Val.str p, Val.str l, Val.str e, Val.str "-", Val.str "-"]]) from rfl]
  rw [show fillTextStep (["Ticker", "Dividend", "Current Price", "Latest Distribution", "Expense Ratio", "Strategy", "Company"],
       [[Val.str "NVDY", Val.str d, Val.str p, Val.str l, Val.str e, Val.str "-", Val.str "-"]])
        "Underlying" =
      (["Ticker", "Dividend", "Current Price", "Latest Distribution", "Expense Ratio", "Strategy", "Company", "Underlying"],
       [[Val.str "NVDY", Val.str d, Val.str p, Val.str l, Val.str e, Val.str "-", Val.str "-", Val.str "-"]]) from rfl]
  rw [show fillTextStep (["Ticker", "Dividend", "Current Price", "Latest Distribution", "Expense Ratio", "Strategy", "Company", "Underlying"],
       [[Val.str "NVDY", Val.str d, Val.str p, Val.str l, Val.str e, Val.str "-", Val.str "-", Val.str "-"]])
        "Payout" =
      (["Ticker", "Dividend", "Current Price", "Latest Distribution", "Expense Ratio", "Strategy", "Company", "Underlying", "Payout"],
       [[Val.str "NVDY", Val.str d, Val.str p, Val.str l, Val.str e, Val.str "-", Val.str "-", Val.str "-", Val.str "-"]]) from rfl]
  rw [show fillTextStep (["Ticker", "Dividend", "Current Price", "Latest Distribution", "Expense Ratio", "Strategy", "Company", "Underlying", "Payout"],
       [[Val.str "NVDY", Val.str d, Val.str p, Val.str l, Val.str e, Val.str "-", Val.str "-", Val.str "-", Val.str "-"]])
        "Category" =
      (["Ticker", "Dividend", "Current Price", "Latest Distribution", "Expense Ratio", "Strategy", "Company", "Underlying", "Payout", "Category"],
       [[Val.str "NVDY", Val.str d, Val.str p, Val.str l, Val.str e, Val.str "-", Val.str "-", Val.str "-", Val.str "-", Val.str "-"]]) from rfl]
  rw [show fillTextStep (["Ticker", "Dividend", "Current Price", "Latest Distribution", "Expense Ratio", "Strategy", "Company", "Underlying", "Payout", "Category"],
       [[Val.str "NVDY", Val.str d, Val.str p, Val.str l, Val.str e, Val.str "-", Val.str "-", Val.str "-", Val.str "-", Val.str "-"]])
        "Pay Date" =
      (["Ticker", "Dividend", "Current Price", "Latest Distribution", "Expense Ratio", "Strategy", "Company", "Underlying", "Payout", "Category", "Pay Date"],
       [[Val.str "NVDY", Val.str d, Val.str p, Val.str l, Val.str e, Val.str "-", Val.str "-", Val.str "-", Val.str "-", Val.str "-", Val.str "-"]]) from rfl]
  rw [show fillTextStep (["Ticker", "Dividend", "Current Price", "Latest Distribution", "Expense Ratio", "Strategy", "Company", "Underlying", "Payout", "Category", "Pay Date"],
       [[Val.str "NVDY", Val.str d, Val.str p, Val.str l, Val.str e, Val.str "-", Val.str "-", Val.str "-", Val.str "-", Val.str "-", Val.str "-"]])
        "Declaration Date" =
      (["Ticker", "Dividend", "Current Price", "Latest Distribution", "Expense Ratio", "Strategy", "Company", "Underlying", "Payout", "Category", "Pay Date", "Declaration Date"],
       [[Val.str "NVDY", Val.str d, Val.str p, Val.str l, Val.str e, Val.str "-", Val.str "-", Val.str "-", Val.str "-", Val.str "-", Val.str "-", Val.str "-"]]) from rfl]
  rw [show fillTextStep (["Ticker", "Dividend", "Current Price", "Latest Distribution", "Expense Ratio", "Strategy", "Company", "Underlying", "Payout", "Category", "Pay Date", "Declaration Date"],
       [[Val.str "NVDY", Val.str d, Val.str p, Val.str l, Val.str e, Val.str "-", Val.str "-", Val.str "-", Val.str "-", Val.str "-", Val.str "-", Val.str "-"]])
        "Ex-Div Date" =
      (["Ticker", "Dividend", "Current Price", "Latest Distribution", "Expense Ratio", "Strategy", "Company", "Underlying", "Payout", "Category", "Pay Date", "Declaration Date", "Ex-Div Date"],
       [[Val.str "NVDY", Val.str d, Val.str p, Val.str l, Val.str e, Val.str "-", Val.str "-", Val.str "-", Val.str "-", Val.str "-", Val.str "-", Val.str "-", Val.str "-"]]) from rfl]
  rw [show numStep (["Ticker", "Dividend", "Current Price", "Latest Distribution", "Expense Ratio", "Strategy", "Company", "Underlying", "Payout", "Category", "Pay Date", "Declaration Date", "Ex-Div Date"],
       [[Val.str "NVDY", Val.str d, Val.str p, Val.str l, Val.str e, Val.str "-", Val.str "-", Val.str "-", Val.str "-", Val.str "-", Val.str "-", Val.str "-", Val.str "-"]])
        "Dividend" =
      (["Ticker", "Dividend", "Current Price", "Latest Distribution", "Expense Ratio", "Strategy", "Company", "Underlying", "Payout", "Category", "Pay Date", "Declaration Date", "Ex-Div Date"],
       [[Val.str "NVDY", Val.num (numClean (Val.str d)), Val.str p, Val.str l, Val.str e, Val.str "-", Val.str "-", Val.str "-", Val.str "-", Val.str "-", Val.str "-", Val.str "-", Val.str "-"]]) from rfl]
  rw [show numStep (["Ticker", "Dividend", "Current Price", "Latest Distribution", "Expense Ratio", "Strategy", "Company", "Underlying", "Payout", "Category", "Pay Date", "Declaration Date", "Ex-Div Date"],
       [[Val.str "NVDY", Val.num (numClean (Val.str d)), Val.str p, Val.str l, Val.str e, Val.str "-", Val.str "-", Val.str "-", Val.str "-", Val.str "-", Val.str "-", Val.str "-", Val.str "-"]])
        "Current Price" =
      (["Ticker", "Dividend", "Current Price", "Latest Distribution", "Expense Ratio", "Strategy", "Company", "Underlying", "Payout", "Category", "Pay Date", "Declaration Date", "Ex-Div Date"],
       [[Val.str "NVDY", Val.num (numClean (Val.str d)), Val.num (numClean (Val.str p)), Val.str l, Val.str e, Val.str "-", Val.str "-", Val.str "-", Val.str "-", Val.str "-", Val.str "-", Val.str "-", Val.str "-"]]) from rfl]
  rw [show numStep (["Ticker", "Dividend", "Current Price", "Latest Distribution", "Expense Ratio", "Strategy", "Company", "Underlying", "Payout", "Category", "Pay Date", "Declaration Date", "Ex-Div Date"],
       [[Val.str "NVDY", Val.num (numClean (Val.str d)), Val.num (numClean (Val.str p)), Val.str l, Val.str e, Val.str "-", Val.str "-", Val.str "-", Val.str "-", Val.str "-", Val.str "-", Val.str "-", Val.str "-"]])
        "Latest Distribution" =
      (["Ticker", "Dividend", "Current Price", "Latest Distribution", "Expense Ratio", "Strategy", "Company", "Underlying", "Payout", "Category", "Pay Date", "Declaration Date", "Ex-Div Date"],
       [[Val.str "NVDY", Val.num (numClean (Val.str d)), Val.num (numClean (Val.str p)), Val.num (numClean (Val.str l)), Val.str e, Val.str "-", Val.str "-", Val.str "-", Val.str "-", Val.str "-", Val.str "-", Val.str "-", Val.str "-"]]) from rfl]
  rfl

/-! ### C7 — no positional column fallback -/

/-- A raw table of 16 columns in which no column is named `Category`;
the 16th column (`"Cat Tags"`, a renamed category column) carries the
value `v`. -/
def rawC7 (v : String) : RawDF :=
  ⟨["Ticker", "Strategy", "Company", "Underlying", "Payout", "Current Price",
    "Dividend", "Expense Ratio", "Latest Distribution", "AUM", "Pay Date",
    "Declaration Date", "Ex-Div Date", "Volume", "Inception", "Cat Tags"],
   [[some "NVDY", some "-", some "-", some "-", some "-", some "$1",
     some "1%", some "1%", some "$1", some "$1M", some "-",
     some "-", some "-", some "-", some "-", some v]]⟩

/-- C7, counterexample: with `Category` absent and the 16th column
holding `"Bitcoin"`, the loaded `Category` value is the synthesised
placeholder `"-"`, not `"Bitcoin"` — no positional recovery is
attempted before synthesising the default column. -/
theorem C7_counterexample :
    (loadData (rawC7 "Bitcoin")).map
        (fun df => colVal df.cols (df.data.getD 0 []) "Category") =
      some (some (Val.str "-")) ∧
    Val.str "-" ≠ Val.str "Bitcoin" := by
  exact ⟨rfl, by decide⟩

/-- C7, amended: when an expected text column (here `Category`) is
absent from the source schema, `load_data` synthesises it directly as a
constant `"-"` column; whatever value sits in the 16th column never
flows into `Category` (it is preserved under its own header). -/
theorem C7_noPositionalFallback (v : String) :
    (loadData (rawC7 v)).map
        (fun df =>
          (colVal df.cols (df.data.getD 0 []) "Category",
           colVal df.cols (df.data.getD 0 []) "Cat Tags")) =
      some (some (Val.str "-"), some (Val.str v)) := by
  rw [@loadData_eq_some (rawC7 v) 0 rfl]
  rw [show dropBad 0 ((rawC7 v).data.map (fun r => r.map rawToVal)) =
        [[Val.str "NVDY", Val.str "-", Val.str "-", Val.str "-", Val.str "-", Val.str "$1",
          Val.str "1%", Val.str "1%", Val.str "$1", Val.str "$1M", Val.str "-",
          Val.str "-", Val.str "-", Val.str "-", Val.str "-", Val.str v]] from rfl]
  rw [show (rawC7 v).cols.map trimStr =
        ["Ticker", "Strategy", "Company", "Underlying", "Payout", "Current Price",
         "Dividend", "Expense Ratio", "Latest Distribution", "AUM", "Pay Date",
         "Declaration Date", "Ex-Div Date", "Volume", "Inception", "Cat Tags"] from rfl]
  simp only [textCols, numCols, List.foldl_cons, List.foldl_nil]
  rw [show fillTextStep (["Ticker", "Strategy", "Company", "Underlying", "Payout", "Current Price", "Dividend", "Expense Ratio", "Latest Distribution", "AUM", "Pay Date", "Declaration Date", "Ex-Div Date", "Volume", "Inception", "Cat Tags"],
       [[Val.str "NVDY", Val.str "-", Val.str "-", Val.str "-", Val.str "-", Val.str "$1", Val.str "1%", Val.str "1%", Val.str "$1", Val.str "$1M", Val.str "-", Val.str "-", Val.str "-", Val.str "-", Val.str "-", Val.str v]])
        "Ticker" =
      (["Ticker", "Strategy", "Company", "Underlying", "Payout", "Current Price", "Dividend", "Expense Ratio", "Latest Distribution", "AUM", "Pay Date", "Declaration Date", "Ex-Div Date", "Volume", "Inception", "Cat Tags"],
       [[Val.str "NVDY", Val.str "-", Val.str "-", Val.str "-", Val.str "-", Val.str "$1", Val.str "1%", Val.str "1%", Val.str "$1", Val.str "$1M", Val.str "-", Val.str "-", Val.str "-", Val.str "-", Val.str "-", Val.str v]]) from rfl]
  rw [show fillTextStep (["Ticker", "Strategy", "Company", "Underlying", "Payout", "Current Price", "Dividend", "Expense Ratio", "Latest Distribution", "AUM", "Pay Date", "Declaration Date", "Ex-Div Date", "Volume", "Inception", "Cat Tags"],
       [[Val.str "NVDY", Val.str "-", Val.str "-", Val.str "-", Val.str "-", Val.str "$1", Val.str "1%", Val.str "1%", Val.str "$1", Val.str "$1M", Val.str "-", Val.str "-", Val.str "-", Val.str "-", Val.str "-", Val.str v]])
        "Strategy" =
      (["Ticker", "Strategy", "Company", "Underlying", "Payout", "Current Price", "Dividend", "Expense Ratio", "Latest Distribution", "AUM", "Pay Date", "Declaration Date", "Ex-Div Date", "Volume", "Inception", "Cat Tags"],
       [[Val.str "NVDY", Val.str "-", Val.str "-", Val.str "-", Val.str "-", Val.str "$1", Val.str "1%", Val.str "1%", Val.str "$1", Val.str "$1M", Val.str "-", Val.str "-", Val.str "-", Val.str "-", Val.str "-", Val.str v]]) from rfl]
  rw [show fillTextStep (["Ticker", "Strategy", "Company", "Underlying", "Payout", "Current Price", "Dividend", "Expense Ratio", "Latest Distribution", "AUM", "Pay Date", "Declaration Date", "Ex-Div Date", "Volume", "Inception", "Cat Tags"],
       [[Val.str "NVDY", Val.str "-", Val.str "-", Val.str "-", Val.str "-", Val.str "$1", Val.str "1%", Val.str "1%", Val.str "$1", Val.str "$1M", Val.str "-", Val.str "-", Val.str "-", Val.str "-", Val.str "-", Val.str v]])
        "Company" =
      (["Ticker", "Strategy", "Company", "Underlying", "Payout", "Current Price", "Dividend", "Expense Ratio", "Latest Distribution", "AUM", "Pay Date", "Declaration Date", "Ex-Div Date", "Volume", "Inception", "Cat Tags"],
       [[Val.str "NVDY", Val.str "-", Val.str "-", Val.str "-", Val.str "-", Val.str "$1", Val.str "1%", Val.str "1%", Val.str "$1", Val.str "$1M", Val.str "-", Val.str "-", Val.str "-", Val.str "-", Val.str "-", Val.str v]]) from rfl]
  rw [show fillTextStep (["Ticker", "Strategy", "Company", "Underlying", "Payout", "Current Price", "Dividend", "Expense Ratio", "Latest Distribution", "AUM", "Pay Date", "Declaration Date", "Ex-Div Date", "Volume", "Inception", "Cat Tags"],
       [[Val.str "NVDY", Val.str "-", Val.str "-", Val.str "-", Val.str "-", Val.str "$1", Val.str "1%", Val.str "1%", Val.str "$1", Val.str "$1M", Val.str "-", Val.str "-", Val.str "-", Val.str "-", Val.str "-", Val.str v]])
        "Underlying" =
      (["Ticker", "Strategy", "Company", "Underlying", "Payout", "Current Price", "Dividend", "Expense Ratio", "Latest Distribution", "AUM", "Pay Date", "Declaration Date", "Ex-Div Date", "Volume", "Inception", "Cat Tags"],
       [[Val.str "NVDY", Val.str "-", Val.str "-", Val.str "-", Val.str "-", Val.str "$1", Val.str "1%", Val.str "1%", Val.str "$1", Val.str "$1M", Val.str "-", Val.str "-", Val.str "-", Val.str "-", Val.str "-", Val.str v]]) from rfl]
  rw [show fillTextStep (["Ticker", "Strategy", "Company", "Underlying", "Payout", "Current Price", "Dividend", "Expense Ratio", "Latest Distribution", "AUM", "Pay Date", "Declaration Date", "Ex-Div Date", "Volume", "Inception", "Cat Tags"],
       [[Val.str "NVDY", Val.str "-", Val.str "-", Val.str "-", Val.str "-", Val.str "$1", Val.str "1%", Val.str "1%", Val.str "$1", Val.str "$1M", Val.str "-", Val.str "-", Val.str "-", Val.str "-", Val.str "-", Val.str v]])
        "Payout" =
      (["Ticker", "Strategy", "Company", "Underlying", "Payout", "Current Price", "Dividend", "Expense Ratio", "Latest Distribution", "AUM", "Pay Date", "Declaration Date", "Ex-Div Date", "Volume", "Inception", "Cat Tags"],
       [[Val.str "NVDY", Val.str "-", Val.str "-", Val.str "-", Val.str "-", Val.str "$1", Val.str "1%", Val.str "1%", Val.str "$1", Val.str "$1M", Val.str "-", Val.str "-", Val.str "-", Val.str "-", Val.str "-", Val.str v]]) from rfl]
  rw [show fillTextStep (["Ticker", "Strategy", "Company", "Underlying", "Payout", "Current Price", "Dividend", "Expense Ratio", "Latest Distribution", "AUM", "Pay Date", "Declaration Date", "Ex-Div Date", "Volume", "Inception", "Cat Tags"],
       [[Val.str "NVDY", Val.str "-", Val.str "-", Val.str "-", Val.str "-", Val.str "$1", Val.str "1%", Val.str "1%", Val.str "$1", Val.str "$1M", Val.str "-", Val.str "-", Val.str "-", Val.str "-", Val.str "-", Val.str v]])
        "Category" =
      (["Ticker", "Strategy", "Company", "Underlying", "Payout", "Current Price", "Dividend", "Expense Ratio", "Latest Distribution", "AUM", "Pay Date", "Declaration Date", "Ex-Div Date", "Volume", "Inception", "Cat Tags", "Category"],
       [[Val.str "NVDY", Val.str "-", Val.str "-", Val.str "-", Val.str "-", Val.str "$1", Val.str "1%", Val.str "1%", Val.str "$1", Val.str "$1M", Val.str "-", Val.str "-", Val.str "-", Val.str "-", Val.str "-", Val.str v, Val.str "-"]]) from rfl]
  rw [show fillTextStep (["Ticker", "Strategy", "Company", "Underlying", "Payout", "Current Price", "Dividend", "Expense Ratio", "Latest Distribution", "AUM", "Pay Date", "Declaration Date", "Ex-Div Date", "Volume", "Inception", "Cat Tags", "Category"],
       [[Val.str "NVDY", Val.str "-", Val.str "-", Val.str "-", Val.str "-", Val.str "$1", Val.str "1%", Val.str "1%", Val.str "$1", Val.str "$1M", Val.str "-", Val.str "-", Val.str "-", Val.str "-", Val.str "-", Val.str v, Val.str "-"]])
        "Pay Date" =
      (["Ticker", "Strategy", "Company", "Underlying", "Payout", "Current Price", "Dividend", "Expense Ratio", "Latest Distribution", "AUM", "Pay Date", "Declaration Date", "Ex-Div Date", "Volume", "Inception", "Cat Tags", "Category"],
       [[Val.str "NVDY", Val.str "-", Val.str "-", Val.str "-", Val.str "-", Val.str "$1", Val.str "1%", Val.str "1%", Val.str "$1", Val.str "$1M", Val.str "-", Val.str "-", Val.str "-", Val.str "-", Val.str "-", Val.str v, Val.str "-"]]) from rfl]
  rw [show fillTextStep (["Ticker", "Strategy", "Company", "Underlying", "Payout", "Current Price", "Dividend", "Expense Ratio", "Latest Distribution", "AUM", "Pay Date", "Declaration Date", "Ex-Div Date", "Volume", "Inception", "Cat Tags", "Category"],
       [[Val.str "NVDY", Val.str "-", Val.str "-", Val.str "-", Val.str "-", Val.str "$1", Val.str "1%", Val.str "1%", Val.str "$1", Val.str "$1M", Val.str "-", Val.str "-", Val.str "-", Val.str "-", Val.str "-", Val.str v, Val.str "-"]])
        "Declaration Date" =
      (["Ticker", "Strategy", "Company", "Underlying", "Payout", "Current Price", "Dividend", "Expense Ratio", "Latest Distribution", "AUM", "Pay Date", "Declaration Date", "Ex-Div Date", "Volume", "Inception", "Cat Tags", "Category"],
       [[Val.str "NVDY", Val.str "-", Val.str "-", Val.str "-", Val.str "-", Val.str "$1", Val.str "1%", Val.str "1%", Val.str "$1", Val.str "$1M", Val.str "-", Val.str "-", Val.str "-", Val.str "-", Val.str "-", Val.str v, Val.str "-"]]) from rfl]
  rw [show fillTextStep (["Ticker", "Strategy", "Company", "Underlying", "Payout", "Current Price", "Dividend", "Expense Ratio", "Latest Distribution", "AUM", "Pay Date", "Declaration Date", "Ex-Div Date", "Volume", "Inception", "Cat Tags", "Category"],
       [[Val.str "NVDY", Val.str "-", Val.str "-", Val.str "-", Val.str "-", Val.str "$1", Val.str "1%", Val.str "1%", Val.str "$1", Val.str "$1M", Val.str "-", Val.str "-", Val.str "-", Val.str "-", Val.str "-", Val.str v, Val.str "-"]])
        "Ex-Div Date" =
      (["Ticker", "Strategy", "Company", "Underlying", "Payout", "Current Price", "Dividend", "Expense Ratio", "Latest Distribution", "AUM", "Pay Date", "Declaration Date", "Ex-Div Date", "Volume", "Inception", "Cat Tags", "Category"],
       [[Val.str "NVDY", Val.str "-", Val.str "-", Val.str "-", Val.str "-", Val.str "$1", Val.str "1%", Val.str "1%", Val.str "$1", Val.str "$1M", Val.str "-", Val.str "-", Val.str "-", Val.str "-", Val.str "-", Val.str v, Val.str "-"]]) from rfl]
  rw [show numStep (["Ticker", "Strategy", "Company", "Underlying", "Payout", "Current Price", "Dividend", "Expense Ratio", "Latest Distribution", "AUM", "Pay Date", "Declaration Date", "Ex-Div Date", "Volume", "Inception", "Cat Tags", "Category"],
       [[Val.str "NVDY", Val.str "-", Val.str "-", Val.str "-", Val.str "-", Val.str "$1", Val.str "1%", Val.str "1%", Val.str "$1", Val.str "$1M", Val.str "-", Val.str "-", Val.str "-", Val.str "-", Val.str "-", Val.str v, Val.str "-"]])
        "Dividend" =
      (["Ticker", "Strategy", "Company", "Underlying", "Payout", "Current Price", "Dividend", "Expense Ratio", "Latest Distribution", "AUM", "Pay Date", "Declaration Date", "Ex-Div Date", "Volume", "Inception", "Cat Tags", "Category"],
       [[Val.str "NVDY", Val.str "-", Val.str "-", Val.str "-", Val.str "-", Val.str "$1", Val.num (numClean (Val.str "1%")), Val.str "1%", Val.str "$1", Val.str "$1M", Val.str "-", Val.str "-", Val.str "-", Val.str "-", Val.str "-", Val.str v, Val.str "-"]]) from rfl]
  rw [show numStep (["Ticker", "Strategy", "Company", "Underlying", "Payout", "Current Price", "Dividend", "Expense Ratio", "Latest Distribution", "AUM", "Pay Date", "Declaration Date", "Ex-Div Date", "Volume", "Inception", "Cat Tags", "Category"],
       [[Val.str "NVDY", Val.str "-", Val.str "-", Val.str "-", Val.str "-", Val.str "$1", Val.num (numClean (Val.str "1%")), Val.str "1%", Val.str "$1", Val.str "$1M", Val.str "-", Val.str "-", Val.str "-", Val.str "-", Val.str "-", Val.str v, Val.str "-"]])
        "Current Price" =
      (["Ticker", "Strategy", "Company", "Underlying", "Payout", "Current Price", "Dividend", "Expense Ratio", "Latest Distribution", "AUM", "Pay Date", "Declaration Date", "Ex-Div Date", "Volume", "Inception", "Cat Tags", "Category"],
       [[Val.str "NVDY", Val.str "-", Val.str "-", Val.str "-", Val.str "-", Val.num (numClean (Val.str "$1")), Val.num (numClean (Val.str "1%")), Val.str "1%", Val.str "$1", Val.str "$1M", Val.str "-", Val.str "-", Val.str "-", Val.str "-", Val.str "-", Val.str v, Val.str "-"]]) from rfl]
  rw [show numStep (["Ticker", "Strategy", "Company", "Underlying", "Payout", "Current Price", "Dividend", "Expense Ratio", "Latest Distribution", "AUM", "Pay Date", "Declaration Date", "Ex-Div Date", "Volume", "Inception", "Cat Tags", "Category"],
       [[Val.str "NVDY", Val.str "-", Val.str "-", Val.str "-", Val.str "-", Val.num (numClean (Val.str "$1")), Val.num (numClean (Val.str "1%")), Val.str "1%", Val.str "$1", Val.str "$1M", Val.str "-", Val.str "-", Val.str "-", Val.str "-", Val.str "-", Val.str v, Val.str "-"]])
        "Latest Distribution" =
      (["Ticker", "Strategy", "Company", "Underlying", "Payout", "Current Price", "Dividend", "Expense Ratio", "Latest Distribution", "AUM", "Pay Date", "Declaration Date", "Ex-Div Date", "Volume", "Inception", "Cat Tags", "Category"],
       [[Val.str "NVDY", Val.str "-", Val.str "-", Val.str "-", Val.str "-", Val.num (numClean (Val.str "$1")), Val.num (numClean (Val.str "1%")), Val.str "1%", Val.num (numClean (Val.str "$1")), Val.str "$1M", Val.str "-", Val.str "-", Val.str "-", Val.str "-", Val.str "-", Val.str v, Val.str "-"]]) from rfl]
  rfl

/-! ### C8 — defaults for missing columns -/

/-- A raw table missing the `Strategy` (text) and `Dividend` (numeric)
columns. -/
def rawC8 : RawDF := ⟨["Ticker", "Company"], [[some "NVDY", some "YieldMax"]]⟩

/-- A raw table with no `Ticker` column at all. -/
def rawC8noTicker : RawDF := ⟨["Strategy"], [[some "x"]]⟩

/-- C8, counterexample: a missing text column is synthesised as the
placeholder `"-"`, not the claimed empty string; a missing numeric
column (`Dividend`) is not synthesised at all; and a missing `Ticker`
column makes the load fail (the `dropna(subset=['Ticker'])` KeyError),
contradicting "never causes a failure". -/
theorem C8_counterexample :
    (loadData rawC8).map (fun df => colVal df.cols (df.data.getD 0 []) "Strategy") =
      some (some (Val.str "-")) ∧
    Val.str "-" ≠ Val.str "" ∧
    (loadData rawC8).map (fun df => df.cols.contains "Dividend") = some false ∧
    loadData rawC8noTicker = none := by
  exact ⟨rfl, by decide, rfl, rfl⟩

/-- C8, amended: provided the `Ticker` column is present, a missing
expected TEXT column is synthesised as a constant `"-"` column and the
load still succeeds; a missing NUMERIC column is not synthesised (it is
simply absent from the result, and every downstream access is guarded
on column presence); a missing `Ticker` column aborts the load. -/
theorem C8_missingColumnDefaults :
    loadData rawC8 =
      some ⟨["Ticker", "Company", "Strategy", "Underlying", "Payout", "Category",
             "Pay Date", "Declaration Date", "Ex-Div Date"],
            [[Val.str "NVDY", Val.str "YieldMax", Val.str "-", Val.str "-", Val.str "-",
              Val.str "-", Val.str "-", Val.str "-", Val.str "-"]]⟩ ∧
    (loadData rawC8).map (fun df => df.cols.contains "Dividend") = some false ∧
    loadData rawC8noTicker = none := by
  exact ⟨rfl, rfl, rfl⟩

/-! ### C9 — rows with a missing or literal "Ticker" ticker are dropped -/

theorem idxOf?_append {c : String} {l : List String} {i : Nat} (l' : List String)
    (h : idxOf? c l = some i) : idxOf? c (l ++ l') = some i := by
  induction l generalizing i with
  | nil => cases h
  | cons d ds ih =>
    rw [List.cons_append]
    simp only [idxOf?] at h ⊢
    by_cases hd : d = c
    · simpa [hd] using h
    · simp only [hd, if_false] at h ⊢
      cases hio : idxOf? c ds with
      | none => rw [hio] at h; cases h
      | some j =>
        rw [hio] at h
        rw [ih hio]
        simpa using h

theorem idxOf?_getD {c : String} {l : List String} {i : Nat} (h : idxOf? c l = some i) :
    l.getD i "" = c := by
  induction l generalizing i with
  | nil => cases h
  | cons d ds ih =>
    unfold idxOf? at h
    by_cases hd : d = c
    · simp only [hd, if_true] at h
      cases h
      simpa using hd
    · simp only [hd, if_false] at h
      cases hio : idxOf? c ds with
      | none => rw [hio] at h; cases h
      | some j =>
        rw [hio] at h
        simp only [Option.map_some'] at h
        cases h
        simpa using ih hio

theorem idxOf?_ne_of_ne {a b : String} {l : List String} {i j : Nat}
    (ha : idxOf? a l = some i) (hb : idxOf? b l = some j) (hab : a ≠ b) : i ≠ j := by
  intro hij
  subst hij
  exact hab ((idxOf?_getD ha).symm.trans (idxOf?_getD hb))

theorem cellAt_modifyAt_ne (f : Val → Val) {i j : Nat} (hij : i ≠ j) (r : List Val) :
    cellAt (modifyAt f j r) i = cellAt r i := by
  induction r generalizing i j with
  | nil => cases j <;> rfl
  | cons v vs ih =>
    cases j with
    | zero =>
      cases i with
      | zero => exact absurd rfl hij
      | succ i' => rfl
    | succ j' =>
      cases i with
      | zero => rfl
      | succ i' =>
        show cellAt (modifyAt f j' vs) i' = cellAt vs i'
        exact ih (fun h => hij (congrArg Nat.succ h))

theorem cellAt_modifyAt_self (f : Val → Val) {i : Nat} {r : List Val} (h : i < r.length) :
    cellAt (modifyAt f i r) i = f (cellAt r i) := by
  induction r generalizing i with
  | nil => cases h
  | cons v vs ih =>
    cases i with
    | zero => rfl
    | succ i' =>
      show cellAt (modifyAt f i' vs) i' = f (cellAt vs i')
      exact ih (Nat.lt_of_succ_lt_succ h)

theorem cellAt_append_lt {r : List Val} {i : Nat} (l : List Val) (h : i < r.length) :
    cellAt (r ++ l) i = cellAt r i := by
  induction r generalizing i with
  | nil => cases h
  | cons v vs ih =>
    cases i with
    | zero => rfl
    | succ i' =>
      show cellAt (vs ++ l) i' = cellAt vs i'
      exact ih (Nat.lt_of_succ_lt_succ h)

theorem lt_length_of_cellAt_ne_na {r : List Val} {i : Nat} (h : cellAt r i ≠ Val.na) :
    i < r.length := by
  by_contra hlt
  push_neg at hlt
  exact h (List.getD_eq_default _ _ hlt)

theorem get?_eq_some_cellAt {r : List Val} {i : Nat} (h : i < r.length) :
    r.get? i = some (cellAt r i) := by
  unfold cellAt
  rw [List.getD_eq_getElem?_getD, ← List.get?_eq_getElem?]
  cases hg : r.get? i with
  | none =>
    rw [List.get?_eq_none] at hg
    omega
  | some v => rfl

theorem cellAt_map_rawToVal (raw : List (Option String)) (i : Nat) :
    cellAt (raw.map rawToVal) i = rawToVal (raw.getD i none) := by
  induction raw generalizing i with
  | nil => cases i <;> rfl
  | cons o os ih =>
    cases i with
    | zero => rfl
    | succ i' => exact ih i'

/-- The property maintained through the normalisation pipeline: every
row carries, at the ticker index, a string other than `"Ticker"` that
stems from the `Ticker` cell of an actual raw row. -/
def TickOK (t : RawDF) (ti : Nat) (rows : List (List Val)) : Prop :=
  ∀ r ∈ rows, ∃ s, cellAt r ti = Val.str s ∧ s ≠ "Ticker" ∧
    ∃ r0 ∈ t.data, r0.getD ti none = some s

theorem tickOK_dropBad (t : RawDF) (ti : Nat) :
    TickOK t ti (dropBad ti (t.data.map (fun r => r.map rawToVal))) := by
  intro r hr
  unfold dropBad at hr
  rw [List.mem_filter] at hr
  rcases hr with ⟨hr1, hne2⟩
  rw [List.mem_filter] at hr1
  rcases hr1 with ⟨hr0, hne1⟩
  rcases List.mem_map.mp hr0 with ⟨r0, hr0m, rfl⟩
  rw [cellAt_map_rawToVal] at hne1 hne2
  cases ho : r0.getD ti none with
  | none =>
    rw [ho] at hne1
    simp [rawToVal] at hne1
  | some s =>
    rw [ho] at hne2
    refine ⟨s, ?_, ?_, r0, hr0m, ho⟩
    · rw [cellAt_map_rawToVal, ho]
      rfl
    · intro hs
      subst hs
      simp [rawToVal] at hne2

theorem tickOK_fillTextStep {t : RawDF} {ti : Nat}
    (st : List String × List (List Val)) (col : String)
    (hti : idxOf? "Ticker" st.1 = some ti) (h : TickOK t ti st.2) :
    idxOf? "Ticker" (fillTextStep st col).1 = some ti ∧
      TickOK t ti (fillTextStep st col).2 := by
  unfold fillTextStep
  cases hio : idxOf? col st.1 with
  | some j =>
    refine ⟨hti, ?_⟩
    intro r' hr'
    rcases List.mem_map.mp hr' with ⟨r, hr, rfl⟩
    rcases h r hr with ⟨s, hs, hsne, hsrc⟩
    by_cases hj : j = ti
    · subst hj
      have hlt : j < r.length :=
        lt_length_of_cellAt_ne_na (by rw [hs]; exact fun hna => Val.noConfusion hna)
      rw [cellAt_modifyAt_self _ hlt, hs]
      exact ⟨s, rfl, hsne, hsrc⟩
    · rw [cellAt_modifyAt_ne _ (fun hh => hj hh.symm)]
      exact ⟨s, hs, hsne, hsrc⟩
  | none =>
    refine ⟨idxOf?_append _ hti, ?_⟩
    intro r' hr'
    rcases List.mem_map.mp hr' with ⟨r, hr, rfl⟩
    rcases h r hr with ⟨s, hs, hsne, hsrc⟩
    have hlt : ti < r.length :=
      lt_length_of_cellAt_ne_na (by rw [hs]; exact fun hna => Val.noConfusion hna)
    rw [cellAt_append_lt _ hlt]
    exact ⟨s, hs, hsne, hsrc⟩

theorem tickOK_numStep {t : RawDF} {ti : Nat}
    (st : List String × List (List Val)) {col : String} (hcol : col ≠ "Ticker")
    (hti : idxOf? "Ticker" st.1 = some ti) (h : TickOK t ti st.2) :
    idxOf? "Ticker" (numStep st col).1 = some ti ∧ TickOK t ti (numStep st col).2 := by
  unfold numStep
  cases hio : idxOf? col st.1 with
  | none => exact ⟨hti, h⟩
  | some j =>
    refine ⟨hti, ?_⟩
    intro r' hr'
    rcases List.mem_map.mp hr' with ⟨r, hr, rfl⟩
    rcases h r hr with ⟨s, hs, hsne, hsrc⟩
    have hj : ti ≠ j := Ne.symm (idxOf?_ne_of_ne hio hti hcol)
    rw [cellAt_modifyAt_ne _ hj]
    exact ⟨s, hs, hsne, hsrc⟩

theorem tickOK_foldl_text {t : RawDF} {ti : Nat} (L : List String)
    (st : List String × List (List Val))
    (hti : idxOf? "Ticker" st.1 = some ti) (h : TickOK t ti st.2) :
    idxOf? "Ticker" (L.foldl fillTextStep st).1 = some ti ∧
      TickOK t ti (L.foldl fillTextStep st).2 := by
  induction L generalizing st with
  | nil => exact ⟨hti, h⟩
  | cons a L ih =>
    rcases tickOK_fillTextStep st a hti h with ⟨h1, h2⟩
    exact ih _ h1 h2

theorem tickOK_foldl_num {t : RawDF} {ti : Nat} (L : List String)
    (hL : ∀ col ∈ L, col ≠ "Ticker") (st : List String × List (List Val))
    (hti : idxOf? "Ticker" st.1 = some ti) (h : TickOK t ti st.2) :
    idxOf? "Ticker" (L.foldl numStep st).1 = some ti ∧
      TickOK t ti (L.foldl numStep st).2 := by
  induction L generalizing st with
  | nil => exact ⟨hti, h⟩
  | cons a L ih =>
    rcases tickOK_numStep st (hL a (List.mem_cons_self _ _)) hti h with ⟨h1, h2⟩
    exact ih (fun col hc => hL col (List.mem_cons_of_mem _ hc)) _ h1 h2

/-- C9: every row of any filtered result carries a ticker string other
than the literal `"Ticker"`, drawn from the `Ticker` cell of an actual
raw row (so a raw row with a missing ticker, or with the repeated
header `"Ticker"` as its ticker, is dropped from the store and never
appears in any filtered result). -/
theorem C9_badTickerRowsNeverAppear (t : RawDF) (df : DF) (c : Criteria) (r : List Val)
    (hload : loadData t = some df) (hr : r ∈ (applyFilters df c).data) :
    ∃ ti, idxOf? "Ticker" (t.cols.map trimStr) = some ti ∧
      ∃ s, colVal df.cols r "Ticker" = some (Val.str s) ∧ s ≠ "Ticker" ∧
        ∃ r0 ∈ t.data, r0.getD ti none = some s := by
  have hrd : r ∈ df.data := ((mem_applyFilters df c r).mp hr).1
  unfold loadData at hload
  cases hio : idxOf? "Ticker" (t.cols.map trimStr) with
  | none =>
    rw [hio] at hload
    cases hload
  | some ti =>
    rw [hio] at hload
    refine ⟨ti, rfl, ?_⟩
    have h0 := tickOK_dropBad t ti
    have h1 := tickOK_foldl_text textCols
      (t.cols.map trimStr, dropBad ti (t.data.map (fun rr => rr.map rawToVal))) hio h0
    have h2 := tickOK_foldl_num numCols (by decide) _ h1.1 h1.2
    injection hload with hdf
    subst hdf
    rw [mkDF_data] at hrd
    rcases h2.2 r hrd with ⟨s, hs, hsne, hsrc⟩
    refine ⟨s, ?_, hsne, hsrc⟩
    unfold colVal
    rw [mkDF_cols, h2.1]
    show r.get? ti = some (Val.str s)
    rw [get?_eq_some_cellAt
      (lt_length_of_cellAt_ne_na (by rw [hs]; exact fun hna => Val.noConfusion hna)), hs]

/-- The raw table of the `C9` witness: one good row, one row with a
missing ticker, one repeated-header row. -/
def rawC9 : RawDF :=
  ⟨["Ticker", "Category"],
   [[some "NVDY", some "A"], [none, some "B"], [some "Ticker", some "C"]]⟩

/-- The loaded dataframe of the `C9` witness. -/
def dfC9 : DF :=
  ⟨["Ticker", "Category", "Strategy", "Company", "Underlying", "Payout",
    "Pay Date", "Declaration Date", "Ex-Div Date"],
   [[Val.str "NVDY", Val.str "A", Val.str "-", Val.str "-", Val.str "-", Val.str "-",
     Val.str "-", Val.str "-", Val.str "-"]]⟩

/-- The single surviving row of the `C9` witness. -/
def rowC9 : List Val :=
  [Val.str "NVDY", Val.str "A", Val.str "-", Val.str "-", Val.str "-", Val.str "-",
   Val.str "-", Val.str "-", Val.str "-"]

def critC9 : Criteria := ⟨"nv", [], [], 0, 150⟩

/-- Evaluation of `loadData` on the `C9` witness table. -/
theorem loadData_rawC9 : loadData rawC9 = some dfC9 := by
  rw [@loadData_eq_some rawC9 0 rfl]
  rw [show dropBad 0 (rawC9.data.map (fun r => r.map rawToVal)) =
        [[Val.str "NVDY", Val.str "A"]] from rfl]
  rw [show rawC9.cols.map trimStr = ["Ticker", "Category"] from rfl]
  simp only [textCols, numCols, List.foldl_cons, List.foldl_nil]
  rw [show fillTextStep (["Ticker", "Category"],
       [[Val.str "NVDY", Val.str "A"]])
        "Ticker" =
      (["Ticker", "Category"],
       [[Val.str "NVDY", Val.str "A"]]) from rfl]
  rw [show fillTextStep (["Ticker", "Category"],
       [[Val.str "NVDY", Val.str "A"]])
        "Strategy" =
      (["Ticker", "Category", "Strategy"],
       [[Val.str "NVDY", Val.str "A", Val.str "-"]]) from rfl]
  rw [show fillTextStep (["Ticker", "Category", "Strategy"],
       [[Val.str "NVDY", Val.str "A", Val.str "-"]])
        "Company" =
      (["Ticker", "Category", "Strategy", "Company"],
       [[Val.str "NVDY", Val.str "A", Val.str "-", Val.str "-"]]) from rfl]
  rw [show fillTextStep (["Ticker", "Category", "Strategy", "Company"],
       [[Val.str "NVDY", Val.str "A", Val.str "-", Val.str "-"]])
        "Underlying" =
      (["Ticker", "Category", "Strategy", "Company", "Underlying"],
       [[Val.str "NVDY", Val.str "A", Val.str "-", Val.str "-", Val.str "-"]]) from rfl]
  rw [show fillTextStep (["Ticker", "Category", "Strategy", "Company", "Underlying"],
       [[Val.str "NVDY", Val.str "A", Val.str "-", Val.str "-", Val.str "-"]])
        "Payout" =
      (["Ticker", "Category", "Strategy", "Company", "Underlying", "Payout"],
       [[Val.str "NVDY", Val.str "A", Val.str "-", Val.str "-", Val.str "-", Val.str "-"]]) from rfl]
  rw [show fillTextStep (["Ticker", "Category", "Strategy", "Company", "Underlying", "Payout"],
       [[Val.str "NVDY", Val.str "A", Val.str "-", Val.str "-", Val.str "-", Val.str "-"]])
        "Category" =
      (["Ticker", "Category", "Strategy", "Company", "Underlying", "Payout"],
       [[Val.str "NVDY", Val.str "A", Val.str "-", Val.str "-", Val.str "-", Val.str "-"]]) from rfl]
  rw [show fillTextStep (["Ticker", "Category", "Strategy", "Company", "Underlying", "Payout"],
       [[Val.str "NVDY", Val.str "A", Val.str "-", Val.str "-", Val.str "-", Val.str "-"]])
        "Pay Date" =
      (["Ticker", "Category", "Strategy", "Company", "Underlying", "Payout", "Pay Date"],
       [[Val.str "NVDY", Val.str "A", Val.str "-", Val.str "-", Val.str "-", Val.str "-", Val.str "-"]]) from rfl]
  rw [show fillTextStep (["Ticker", "Category", "Strategy", "Company", "Underlying", "Payout", "Pay Date"],
       [[Val.str "NVDY", Val.str "A", Val.str "-", Val.str "-", Val.str "-", Val.str "-", Val.str "-"]])
        "Declaration Date" =
      (["Ticker", "Category", "Strategy", "Company", "Underlying", "Payout", "Pay Date", "Declaration Date"],
       [[Val.str "NVDY", Val.str "A", Val.str "-", Val.str "-", Val.str "-", Val.str "-", Val.str "-", Val.str "-"]]) from rfl]
  rw [show fillTextStep (["Ticker", "Category", "Strategy", "Company", "Underlying", "Payout", "Pay Date", "Declaration Date"],
       [[Val.str "NVDY", Val.str "A", Val.str "-", Val.str "-", Val.str "-", Val.str "-", Val.str "-", Val.str "-"]])
        "Ex-Div Date" =
      (["Ticker", "Category", "Strategy", "Company", "Underlying", "Payout", "Pay Date", "Declaration Date", "Ex-Div Date"],
       [[Val.str "NVDY", Val.str "A", Val.str "-", Val.str "-", Val.str "-", Val.str "-", Val.str "-", Val.str "-", Val.str "-"]]) from rfl]
  rw [show numStep (["Ticker", "Category", "Strategy", "Company", "Underlying", "Payout", "Pay Date", "Declaration Date", "Ex-Div Date"],
       [[Val.str "NVDY", Val.str "A", Val.str "-", Val.str "-", Val.str "-", Val.str "-", Val.str "-", Val.str "-", Val.str "-"]])
        "Dividend" =
      (["Ticker", "Category", "Strategy", "Company", "Underlying", "Payout", "Pay Date", "Declaration Date", "Ex-Div Date"],
       [[Val.str "NVDY", Val.str "A", Val.str "-", Val.str "-", Val.str "-", Val.str "-", Val.str "-", Val.str "-", Val.str "-"]]) from rfl]
  rw [show numStep (["Ticker", "Category", "Strategy", "Company", "Underlying", "Payout", "Pay Date", "Declaration Date", "Ex-Div Date"],
       [[Val.str "NVDY", Val.str "A", Val.str "-", Val.str "-", Val.str "-", Val.str "-", Val.str "-", Val.str "-", Val.str "-"]])
        "Current Price" =
      (["Ticker", "Category", "Strategy", "Company", "Underlying", "Payout", "Pay Date", "Declaration Date", "Ex-Div Date"],
       [[Val.str "NVDY", Val.str "A", Val.str "-", Val.str "-", Val.str "-", Val.str "-", Val.str "-", Val.str "-", Val.str "-"]]) from rfl]
  rw [show numStep (["Ticker", "Category", "Strategy", "Company", "Underlying", "Payout", "Pay Date", "Declaration Date", "Ex-Div Date"],
       [[Val.str "NVDY", Val.str "A", Val.str "-", Val.str "-", Val.str "-", Val.str "-", Val.str "-", Val.str "-", Val.str "-"]])
        "Latest Distribution" =
      (["Ticker", "Category", "Strategy", "Company", "Underlying", "Payout", "Pay Date", "Declaration Date", "Ex-Div Date"],
       [[Val.str "NVDY", Val.str "A", Val.str "-", Val.str "-", Val.str "-", Val.str "-", Val.str "-", Val.str "-", Val.str "-"]]) from rfl]
  rfl

/-- Witness for `C9_badTickerRowsNeverAppear` on a concrete table whose
missing-ticker and repeated-header rows are dropped. -/
theorem C9_badTickerRowsNeverAppear_witness :
    ∃ ti, idxOf? "Ticker" (rawC9.cols.map trimStr) = some ti ∧
      ∃ s, colVal dfC9.cols rowC9 "Ticker" = some (Val.str s) ∧ s ≠ "Ticker" ∧
        ∃ r0 ∈ rawC9.data, r0.getD ti none = some s :=
  C9_badTickerRowsNeverAppear rawC9 dfC9 critC9 rowC9 loadData_rawC9 (by decide)

end SearchBar
